import Mathlib

/-!
The multi-tenant gateway of `server.js`.

A shallow embedding of `src/server.js`: the two process-wide caches
(`connections`, `models`), the functions `getConnection` and `getModel`, and the
five route handlers.  The driver (mongoose, the store) is the environment: each
place where the source awaits it takes its outcome as an input.

Two executions are modelled.  `getConnection`, `getModel` and the handlers are
the source run one call at a time (a call finishes before the next starts).
`step` and `run` are `getConnection` cut at its two `await`s, with several
calls in flight and an explicit schedule.
-/

namespace Gateway

/-! ## Script objects -/

/-- Property names that every object literal inherits from `Object.prototype`.
`connections`, `models` and `modelMapping` are all created by object literals, so
`obj[key]` finds one of these when `key` is not an own property. -/
def objectPrototypeKeys : List String :=
  ["constructor", "__proto__", "hasOwnProperty", "isPrototypeOf",
   "propertyIsEnumerable", "toLocaleString", "toString", "valueOf",
   "__defineGetter__", "__defineSetter__", "__lookupGetter__", "__lookupSetter__"]

/-- What a property read `obj[key]` finds: an own property holding `v`, or a
member inherited from `Object.prototype`.  Both are truthy; a read that finds
nothing is `none` (the value `undefined`, falsy). -/
inductive Slot (α : Type) where
  | own (v : α)
  | inherited (key : String)
  deriving DecidableEq, Repr

/-- Own properties of an object literal. -/
abbrev JSObj (α : Type) := List (String × α)

/-- The read `obj[key]`: own properties first, then `Object.prototype`. -/
def JSObj.get {α : Type} (o : JSObj α) (key : String) : Option (Slot α) :=
  match o.lookup key with
  | some v => some (Slot.own v)
  | none => if key ∈ objectPrototypeKeys then some (Slot.inherited key) else none

/-- The delete statement `delete obj[key]`: the own property is removed. -/
def JSObj.erase {α : Type} (o : JSObj α) (key : String) : JSObj α :=
  o.filter (fun p => p.1 != key)

/-- The write `obj[key] = v` of an own property. -/
def JSObj.set {α : Type} (o : JSObj α) (key : String) (v : α) : JSObj α :=
  (key, v) :: JSObj.erase o key

/-! ## Connections, handles, store -/

/-- A connection object returned by `mongoose.createConnection`.  `id` is its
identity (the index of the `createConnection` call that made it), `dbName` the
option it was created with. -/
structure Connection where
  id : Nat
  dbName : String
  deriving DecidableEq, Repr

/-- A model exported by `./models/*.js`: the two members `getModel` reads. -/
structure RegisteredModel where
  modelName : String
  schema : Nat
  deriving DecidableEq, Repr

/-- The two imported models (lines 13-14); their files are not part of the
source, so they are parameters. -/
structure Registry where
  GroceryItem : RegisteredModel
  Employee : RegisteredModel
  deriving DecidableEq, Repr

/-- The object literal `modelMapping` (lines 16-19). -/
def modelMapping (reg : Registry) : JSObj RegisteredModel :=
  [("GroceryInventory", reg.GroceryItem), ("Employees", reg.Employee)]

/-- Second argument of `connection.model`. -/
inductive SchemaArg where
  | registered (schema : Nat)
  | dynamic
  | undefined
  deriving DecidableEq, Repr

/-- The receiver and the three arguments of a call
`connection.model(name, schema, collection)`; `name` is `none` when the argument
is `undefined`.  A document handle is the record of the call that built it. -/
structure Handle where
  conn : Connection
  name : Option String
  schema : SchemaArg
  collection : String
  deriving DecidableEq, Repr

/-- A stored document. -/
structure Doc where
  id : String
  fields : List (String × String)
  deriving DecidableEq, Repr

/-- A physical collection of one database. -/
structure Coll where
  db : String
  name : String
  docs : List Doc
  deriving DecidableEq, Repr

/-- The storage behind all connections. -/
abbrev Store := List Coll

/-- Driver call `db.listCollections` with a name filter, on database `db`. -/
def listCollections (st : Store) (db name : String) : List Coll :=
  st.filter (fun c => c.db == db && c.name == name)

/-- Driver call `db.dropCollection(name)` on database `db`. -/
def dropCollection (st : Store) (db name : String) : Store :=
  st.filter (fun c => !(c.db == db && c.name == name))

/-- Documents of collection `name` of database `db`. -/
def findAll (st : Store) (db name : String) : List Doc :=
  (listCollections st db name).flatMap Coll.docs

/-- Document with the given id in collection `name` of database `db`. -/
def findById (st : Store) (db name id : String) : Option Doc :=
  (findAll st db name).find? (fun d => d.id == id)

/-- Saving a document: appended to its collection, which is created if absent. -/
def insertDoc (st : Store) (db name : String) (d : Doc) : Store :=
  if (listCollections st db name).isEmpty then st ++ [⟨db, name, [d]⟩]
  else st.map (fun c => if c.db == db && c.name == name then { c with docs := c.docs ++ [d] } else c)

/-! ## Errors and responses -/

/-- Errors thrown inside the handlers. -/
inductive Err where
  | createRejected
  | errorEvent
  | typeError (what : String)
  | referenceError (name : String)
  | storeFailure
  | saveFailure
  | missingSchema
  | emptyCollectionName
  deriving DecidableEq, Repr

/-- Body of a response. -/
inductive Body where
  | documents (docs : List Doc)
  | messageDocument (message : String) (document : Doc)
  | message (text : String)
  | error (text : String)
  | errorOf (err : Err)
  deriving DecidableEq, Repr

/-- What `res.status(n).json(body)` sends. -/
structure Response where
  status : Nat
  body : Body
  deriving DecidableEq, Repr

/-! ## Process state -/

/-- The module-level state: the two caches, the number of
`mongoose.createConnection` invocations so far, and the store. -/
structure State where
  connections : JSObj Connection
  models : JSObj Handle
  created : Nat
  store : Store
  deriving DecidableEq, Repr

/-- State at process start with a given store. -/
def initState (store : Store) : State := ⟨[], [], 0, store⟩

/-- Every cached connection was created for the tenant it is cached under. -/
def ConnectionsKeyed (s : State) : Prop :=
  ∀ p ∈ s.connections, p.2.dbName = p.1

instance (s : State) : Decidable (ConnectionsKeyed s) := by
  unfold ConnectionsKeyed
  infer_instance

/-- How a connection attempt ends: `createConnection` rejects, or the created
connection emits `error` before `open`, or it emits `open`. -/
inductive ConnectOutcome where
  | rejects
  | emitsError
  | opens
  deriving DecidableEq, Repr

/-- Outcomes of the awaited driver calls of one request. -/
structure Env where
  connect : ConnectOutcome
  findOk : Bool
  saved : Option Doc
  listOk : Bool
  dropOk : Bool
  deriving DecidableEq, Repr

/-- The function `getConnection` (lines 25-39), run without interleaving. -/
def getConnection (dbName : String) (o : ConnectOutcome) (s : State) :
    Except Err (Option (Slot Connection)) × State :=
  match s.connections.get dbName with
  | none =>
    let k : Connection := ⟨s.created, dbName⟩
    let s1 : State := { s with created := s.created + 1 }
    match o with
    | ConnectOutcome.rejects => (Except.error Err.createRejected, s1)
    | ConnectOutcome.emitsError =>
      (Except.error Err.errorEvent, { s1 with connections := s1.connections.set dbName k })
    | ConnectOutcome.opens =>
      let s2 : State := { s1 with connections := s1.connections.set dbName k }
      (Except.ok (s2.connections.get dbName), s2)
  | some v => (Except.ok (some v), s)

/-- The template literal of lines 43 and 175. -/
def modelKey (dbName collectionName : String) : String :=
  dbName ++ "-" ++ collectionName

/-- The receiver and arguments of the `connection.model` call that lines 47-68
make on connection `k`: line 54 when `modelMapping[collectionName]` is falsy,
line 62 otherwise.  A member inherited from `Object.prototype` is truthy and has
neither a `modelName` nor a `schema`. -/
def modelArguments (reg : Registry) (k : Connection) (collectionName : String) : Handle :=
  match (modelMapping reg).get collectionName with
  | none => ⟨k, some collectionName, SchemaArg.dynamic, collectionName⟩
  | some (Slot.own m) => ⟨k, some m.modelName, SchemaArg.registered m.schema, collectionName⟩
  | some (Slot.inherited _) => ⟨k, none, SchemaArg.undefined, collectionName⟩

/-- The `connection.model` call of lines 47-68 on connection `k`, with the answer
of the library: without a schema it throws `MissingSchemaError`, with an empty
name and an empty collection name it throws as well, otherwise it returns the
handle. -/
def buildHandle (reg : Registry) (k : Connection) (collectionName : String) :
    Except Err Handle :=
  match (modelArguments reg k collectionName).name,
      (modelArguments reg k collectionName).schema with
  | none, _ => Except.error Err.missingSchema
  | some _, SchemaArg.undefined => Except.error Err.missingSchema
  | some n, _ =>
    if n = "" ∧ (modelArguments reg k collectionName).collection = "" then
      Except.error Err.emptyCollectionName
    else Except.ok (modelArguments reg k collectionName)

/-- The function `getModel` (lines 41-71), run without interleaving.  When
`getConnection` returns a member inherited from `Object.prototype`, that value
has no `model` method and the call at line 54 or 62 throws.  When
`connection.model` throws, the assignment to `models[modelKey]` does not happen. -/
def getModel (reg : Registry) (dbName collectionName : String) (o : ConnectOutcome)
    (s : State) : Except Err (Option (Slot Handle)) × State :=
  match s.models.get (modelKey dbName collectionName) with
  | none =>
    match getConnection dbName o s with
    | (Except.error e, s1) => (Except.error e, s1)
    | (Except.ok (some (Slot.own k)), s1) =>
      match buildHandle reg k collectionName with
      | Except.error e => (Except.error e, s1)
      | Except.ok h =>
        let s2 : State :=
          { s1 with models := s1.models.set (modelKey dbName collectionName) h }
        (Except.ok (s2.models.get (modelKey dbName collectionName)), s2)
    | (Except.ok _, s1) => (Except.error (Err.typeError "connection.model is not a function"), s1)
  | some v => (Except.ok (some v), s)

deriving instance DecidableEq for Except

/-! ## Route handlers -/

/-- An unexecuted query object, as returned by `Model.findByIdAndUpdate` and
`Model.findByIdAndDelete` when no callback is passed.  It reaches the store only
when it is awaited or `exec` is called on it. -/
inductive Query where
  | findByIdAndUpdate (model : Handle) (id : String) (data : List (String × String))
  | findByIdAndDelete (model : Handle) (id : String)
  deriving DecidableEq, Repr

/-- Values bound to `updatedDocument` and `deletedDocument`.  Awaiting a query
would give `null` or a document; the query object itself is the third case. -/
inductive Value where
  | null
  | document (d : Doc)
  | query (q : Query)
  deriving DecidableEq, Repr

/-- Truthiness: `null` is falsy, every object is truthy. -/
def Value.truthy : Value → Bool
  | Value.null => false
  | Value.document _ => true
  | Value.query _ => true

/-- The identifier `newDocument` read at line 119: no binding of that name is in
scope there (the one of line 95 is local to the insert handler), so the read
throws. -/
def newDocument : Except Err Doc := Except.error (Err.referenceError "newDocument")

/-- Handler of `GET /find/:database/:collection` (lines 73-84). -/
def findHandler (reg : Registry) (database collection : String) (env : Env) (s : State) :
    Response × State :=
  match getModel reg database collection env.connect s with
  | (Except.error e, s1) => (⟨500, Body.errorOf e⟩, s1)
  | (Except.ok (some (Slot.own m)), s1) =>
    if env.findOk then (⟨200, Body.documents (findAll s1.store m.conn.dbName m.collection)⟩, s1)
    else (⟨500, Body.errorOf Err.storeFailure⟩, s1)
  | (Except.ok _, s1) => (⟨500, Body.errorOf (Err.typeError "Model.find is not a function")⟩, s1)

/-- Handler of `POST /insert/:database/:collection` (lines 86-108).  `env.saved`
is the document `save()` persists, `none` when `save()` rejects. -/
def insertHandler (reg : Registry) (database collection : String) (env : Env) (s : State) :
    Response × State :=
  match getModel reg database collection env.connect s with
  | (Except.error e, s1) => (⟨400, Body.errorOf e⟩, s1)
  | (Except.ok (some (Slot.own m)), s1) =>
    match env.saved with
    | some d =>
      (⟨201, Body.messageDocument "Document saved successfully" d⟩,
        { s1 with store := insertDoc s1.store m.conn.dbName m.collection d })
    | none => (⟨400, Body.errorOf Err.saveFailure⟩, s1)
  | (Except.ok _, s1) => (⟨400, Body.errorOf (Err.typeError "Model is not a constructor")⟩, s1)

/-- Handler of `PUT /update/:database/:collection/:id` (lines 110-124).  Line 115
has no `await`, so `updatedDocument` is the query object. -/
def updateHandler (reg : Registry) (database collection id : String)
    (data : List (String × String)) (env : Env) (s : State) : Response × State :=
  match getModel reg database collection env.connect s with
  | (Except.error e, s1) => (⟨400, Body.errorOf e⟩, s1)
  | (Except.ok (some (Slot.own m)), s1) =>
    let updatedDocument := Value.query (Query.findByIdAndUpdate m id data)
    if !updatedDocument.truthy then (⟨404, Body.message "id not found"⟩, s1)
    else
      match newDocument with
      | Except.ok d => (⟨200, Body.messageDocument "Document updated successfully" d⟩, s1)
      | Except.error e => (⟨400, Body.errorOf e⟩, s1)
  | (Except.ok _, s1) =>
    (⟨400, Body.errorOf (Err.typeError "Model.findByIdAndUpdate is not a function")⟩, s1)

/-- Handler of `DELETE /delete/:database/:collection/:id` (lines 126-139).  Line
130 has no `await`, so `deletedDocument` is the query object. -/
def deleteHandler (reg : Registry) (database collection id : String) (env : Env) (s : State) :
    Response × State :=
  match getModel reg database collection env.connect s with
  | (Except.error e, s1) => (⟨400, Body.errorOf e⟩, s1)
  | (Except.ok (some (Slot.own m)), s1) =>
    let deletedDocument := Value.query (Query.findByIdAndDelete m id)
    if !deletedDocument.truthy then (⟨404, Body.error "Document not found"⟩, s1)
    else (⟨200, Body.message "Document deleted successfully"⟩, s1)
  | (Except.ok _, s1) =>
    (⟨400, Body.errorOf (Err.typeError "Model.findByIdAndDelete is not a function")⟩, s1)

/-- Body of every 500 answer of the delete-collection handler (line 184). -/
def deleteCollectionFailure : Response :=
  ⟨500, Body.error "An error occurred while deleting the collection."⟩

/-- Handler of `DELETE /delete-collection/:database/:collection` (lines 153-186).
A value inherited from `Object.prototype` has no `db` member, so line 158 throws
on it. -/
def deleteCollectionHandler (database collection : String) (env : Env) (s : State) :
    Response × State :=
  match getConnection database env.connect s with
  | (Except.error _, s1) => (deleteCollectionFailure, s1)
  | (Except.ok (some (Slot.own connection)), s1) =>
    if env.listOk then
      let collections := listCollections s1.store connection.dbName collection
      let collectionExists := decide (collections.length > 0)
      if !collectionExists then
        (⟨404, Body.error ("Collection '" ++ collection ++ "' does not exist in database '"
            ++ database ++ "'.")⟩, s1)
      else if env.dropOk then
        let s2 : State := { s1 with store := dropCollection s1.store connection.dbName collection }
        let s3 : State := { s2 with models := s2.models.erase (modelKey database collection) }
        (⟨200, Body.message ("Collection '" ++ collection
            ++ "' has been successfully deleted from database '" ++ database ++ "'")⟩, s3)
      else (deleteCollectionFailure, s1)
    else (deleteCollectionFailure, s1)
  | (Except.ok _, s1) => (deleteCollectionFailure, s1)

/-- One request to the gateway, with the outcomes of its driver calls. -/
inductive Op where
  | find (database collection : String) (env : Env)
  | insert (database collection : String) (env : Env)
  | update (database collection id : String) (data : List (String × String)) (env : Env)
  | delete (database collection id : String) (env : Env)
  | deleteCollection (database collection : String) (env : Env)
  deriving DecidableEq, Repr

/-- Serving one request. -/
def runOp (reg : Registry) (op : Op) (s : State) : Response × State :=
  match op with
  | Op.find db c env => findHandler reg db c env s
  | Op.insert db c env => insertHandler reg db c env s
  | Op.update db c id data env => updateHandler reg db c id data env s
  | Op.delete db c id env => deleteHandler reg db c id env s
  | Op.deleteCollection db c env => deleteCollectionHandler db c env s

/-- Serving requests one after another. -/
def runOps (reg : Registry) (ops : List Op) (s : State) : State :=
  ops.foldl (fun st op => (runOp reg op st).2) s

/-! ## Interleaved calls of `getConnection` -/

/-- Where a call of `getConnection` stands. -/
inductive Pc where
  | awaitCreate (k : Connection)
  | awaitOpen (k : Connection)
  | returned (v : Option (Slot Connection))
  | threw (e : Err)
  deriving DecidableEq, Repr

/-- A call of `getConnection(dbName)` in flight or finished. -/
structure Task where
  dbName : String
  pc : Pc
  deriving DecidableEq, Repr

/-- The process with calls of `getConnection` in flight. -/
structure Sys where
  st : State
  tasks : List Task
  deriving DecidableEq, Repr

/-- What the scheduler or the driver does next; any order of events is a
schedule.
`call dbName ok`: a caller invokes `getConnection(dbName)`, which runs up to the
`await` of line 28 (`ok = false`: `createConnection` rejects).
`resume i`: call `i` continues after the `await` of line 28, up to the `await` of
line 30.  `emitOpen i` and `emitError i`: the connection call `i` listens on emits
the event and call `i` runs to its end. -/
inductive Event where
  | call (dbName : String) (ok : Bool)
  | resume (i : Nat)
  | emitOpen (i : Nat)
  | emitError (i : Nat)
  deriving DecidableEq, Repr

/-- Replace the program counter of call `i`. -/
def Sys.setPc (s : Sys) (i : Nat) (pc : Pc) : List Task :=
  s.tasks.modify (fun t => { t with pc := pc }) i

/-- One scheduling step. An event that does not fit the state of its call
changes nothing. -/
def step (s : Sys) (ev : Event) : Sys :=
  match ev with
  | Event.call dbName ok =>
    match s.st.connections.get dbName with
    | some v => { s with tasks := s.tasks ++ [⟨dbName, Pc.returned (some v)⟩] }
    | none =>
      let k : Connection := ⟨s.st.created, dbName⟩
      let st1 : State := { s.st with created := s.st.created + 1 }
      if ok then ⟨st1, s.tasks ++ [⟨dbName, Pc.awaitCreate k⟩]⟩
      else ⟨st1, s.tasks ++ [⟨dbName, Pc.threw Err.createRejected⟩]⟩
  | Event.resume i =>
    match s.tasks.get? i with
    | some ⟨dbName, Pc.awaitCreate k⟩ =>
      ⟨{ s.st with connections := s.st.connections.set dbName k }, s.setPc i (Pc.awaitOpen k)⟩
    | _ => s
  | Event.emitOpen i =>
    match s.tasks.get? i with
    | some ⟨dbName, Pc.awaitOpen _⟩ =>
      { s with tasks := s.setPc i (Pc.returned (s.st.connections.get dbName)) }
    | _ => s
  | Event.emitError i =>
    match s.tasks.get? i with
    | some ⟨_, Pc.awaitOpen _⟩ => { s with tasks := s.setPc i (Pc.threw Err.errorEvent) }
    | _ => s

/-- A schedule, run from left to right. -/
def run (s : Sys) (evs : List Event) : Sys :=
  evs.foldl step s

/-- The call is suspended at the `await` of line 28. -/
def Pc.isAwaitCreate : Pc → Bool
  | Pc.awaitCreate _ => true
  | _ => false

/-- No call for tenant `T` is suspended at the `await` of line 28. -/
def NoCreator (T : String) (s : Sys) : Prop :=
  ∀ t ∈ s.tasks, t.dbName = T → t.pc.isAwaitCreate = false

instance (T : String) (s : Sys) : Decidable (NoCreator T s) := by
  unfold NoCreator
  infer_instance

/-! ## Sample inputs -/

/-- A registry with two distinct models. -/
def sampleRegistry : Registry := ⟨⟨"GroceryItem", 1⟩, ⟨"Employee", 2⟩⟩

/-- Every driver call of the request succeeds; `save()` persists nothing. -/
def allOk : Env := ⟨ConnectOutcome.opens, true, none, true, true⟩

/-- A store with one collection `items` of database `shop` holding one document. -/
def shopStore : Store := [⟨"shop", "items", [⟨"d1", [("qty", "5")]⟩]⟩]

/-- A store whose only collection, `items` of database `shop`, is empty. -/
def emptyItemsStore : Store := [⟨"shop", "items", []⟩]

/-- The state after handles for `shop/items` and `shop/other` were obtained on a
fresh process over `emptyItemsStore`. -/
def warmState : State :=
  (getModel sampleRegistry "shop" "other" ConnectOutcome.opens
    (getModel sampleRegistry "shop" "items" ConnectOutcome.opens
      (initState emptyItemsStore)).2).2

/-- Two callers ask for tenant `shop` before either resumes; then each resumes
and sees its connection open. -/
def raceSchedule : List Event :=
  [Event.call "shop" true, Event.call "shop" true, Event.resume 0, Event.emitOpen 0,
   Event.resume 1, Event.emitOpen 1]

/-- A second caller asks for tenant `shop` after the first has resumed and before
the connection has opened; the connection then emits `error`. -/
def lateCallerSchedule : List Event :=
  [Event.call "shop" true, Event.resume 0, Event.call "shop" true, Event.emitError 0]


/-! ## Reads and writes of script objects -/

theorem JSObj.lookup_erase_self {α : Type} (o : JSObj α) (key : String) :
    List.lookup key (JSObj.erase o key) = none := by
  induction o with
  | nil => rfl
  | cons p o ih =>
    obtain ⟨a, b⟩ := p
    by_cases h : a = key
    · simpa [JSObj.erase, List.filter_cons, h] using ih
    · have h2 : (key == a) = false := by simpa using fun e => h e.symm
      simpa [JSObj.erase, List.filter_cons, h, List.lookup_cons, h2] using ih

theorem JSObj.lookup_erase_of_ne {α : Type} (o : JSObj α) (key other : String)
    (h : other ≠ key) : List.lookup other (JSObj.erase o key) = List.lookup other o := by
  induction o with
  | nil => rfl
  | cons p o ih =>
    obtain ⟨a, b⟩ := p
    by_cases hp : a = key
    · subst hp
      have h2 : (other == a) = false := by simpa using h
      simpa [JSObj.erase, List.filter_cons, List.lookup_cons, h2] using ih
    · by_cases ho : other = a
      · simp [JSObj.erase, List.filter_cons, hp, List.lookup_cons, ho]
      · have h2 : (other == a) = false := by simpa using ho
        simpa [JSObj.erase, List.filter_cons, hp, List.lookup_cons, h2] using ih

theorem JSObj.get_set_self {α : Type} (o : JSObj α) (key : String) (v : α) :
    JSObj.get (JSObj.set o key v) key = some (Slot.own v) := by
  simp [JSObj.get, JSObj.set, List.lookup_cons]

theorem JSObj.get_set_of_ne {α : Type} (o : JSObj α) (key other : String) (v : α)
    (h : other ≠ key) : JSObj.get (JSObj.set o key v) other = JSObj.get o other := by
  have h2 : (other == key) = false := by simpa using h
  simp [JSObj.get, JSObj.set, List.lookup_cons, h2, JSObj.lookup_erase_of_ne o key other h]

theorem JSObj.get_erase_of_ne {α : Type} (o : JSObj α) (key other : String)
    (h : other ≠ key) : JSObj.get (JSObj.erase o key) other = JSObj.get o other := by
  simp [JSObj.get, JSObj.lookup_erase_of_ne o key other h]

theorem modelKey_not_inherited (dbName collectionName : String) :
    modelKey dbName collectionName ∉ objectPrototypeKeys := by
  intro hmem
  have hdash : '-' ∈ (modelKey dbName collectionName).data := by
    simp [modelKey, String.data_append]
  simp only [objectPrototypeKeys, List.mem_cons, List.mem_singleton, List.not_mem_nil,
    or_false] at hmem
  rcases hmem with h | h | h | h | h | h | h | h | h | h | h | h <;>
    (rw [h] at hdash; revert hdash; decide)

theorem JSObj.get_erase_modelKey {α : Type} (o : JSObj α) (dbName collectionName : String) :
    JSObj.get (JSObj.erase o (modelKey dbName collectionName))
      (modelKey dbName collectionName) = none := by
  simp [JSObj.get, JSObj.lookup_erase_self, modelKey_not_inherited]


theorem append_cons_cancel {α : Type} (a : α) (l1 l2 r1 r2 : List α)
    (h1 : a ∉ l1) (h2 : a ∉ l2) (h : l1 ++ a :: r1 = l2 ++ a :: r2) :
    l1 = l2 ∧ r1 = r2 := by
  induction l1 generalizing l2 with
  | nil =>
    cases l2 with
    | nil => exact ⟨rfl, by simpa using h⟩
    | cons b l2 =>
      simp only [List.nil_append, List.cons_append, List.cons.injEq] at h
      exact absurd (h.1 ▸ List.mem_cons_self _ _) h2
  | cons c l1 ih =>
    cases l2 with
    | nil =>
      simp only [List.nil_append, List.cons_append, List.cons.injEq] at h
      exact absurd (h.1 ▸ List.mem_cons_self _ _) h1
    | cons b l2 =>
      simp only [List.cons_append, List.cons.injEq] at h
      have := ih l2 (fun hm => h1 (List.mem_cons_of_mem _ hm))
        (fun hm => h2 (List.mem_cons_of_mem _ hm)) h.2
      exact ⟨by rw [h.1, this.1], this.2⟩

/-- Two pairs whose tenant names contain no `-` have the same key only when they
are the same pair. -/
theorem modelKey_injective (T C T2 C2 : String)
    (h1 : '-' ∉ T.data) (h2 : '-' ∉ T2.data) (h : modelKey T C = modelKey T2 C2) :
    T = T2 ∧ C = C2 := by
  have hd : T.data ++ '-' :: C.data = T2.data ++ '-' :: C2.data := by
    have := congrArg String.data h
    simpa [modelKey, String.data_append] using this
  have hinj := append_cons_cancel '-' _ _ _ _ h1 h2 hd
  exact ⟨String.ext hinj.1, String.ext hinj.2⟩

/-! ## `getConnection` and `getModel`, one call at a time -/

theorem getConnection_hit (dbName : String) (o : ConnectOutcome) (s : State)
    (v : Slot Connection) (h : s.connections.get dbName = some v) :
    getConnection dbName o s = (Except.ok (some v), s) := by
  simp [getConnection, h]

theorem getConnection_miss_opens (dbName : String) (s : State)
    (h : s.connections.get dbName = none) :
    getConnection dbName ConnectOutcome.opens s =
      (Except.ok (some (Slot.own ⟨s.created, dbName⟩)),
        { s with created := s.created + 1,
                 connections := s.connections.set dbName ⟨s.created, dbName⟩ }) := by
  simp [getConnection, h, JSObj.get_set_self]

theorem getConnection_ok (dbName : String) (o : ConnectOutcome) (s s1 : State)
    (r : Option (Slot Connection)) (h : getConnection dbName o s = (Except.ok r, s1)) :
    s1.connections.get dbName = r ∧ r.isSome = true ∧ s1.models = s.models ∧
      s1.store = s.store ∧
      ((s.connections.get dbName = r ∧ s1 = s) ∨
       (s.connections.get dbName = none ∧ r = some (Slot.own ⟨s.created, dbName⟩) ∧
        s1.connections = s.connections.set dbName ⟨s.created, dbName⟩ ∧
        s1.created = s.created + 1)) := by
  unfold getConnection at h
  cases hget : s.connections.get dbName with
  | some v =>
    simp only [hget, Prod.mk.injEq, Except.ok.injEq] at h
    obtain ⟨hr, hs⟩ := h
    subst hr; subst hs
    simp [hget]
  | none =>
    cases o <;> simp only [hget, Prod.mk.injEq, reduceCtorEq, false_and, Except.ok.injEq] at h
    obtain ⟨hr, hs⟩ := h
    subst hs
    rw [JSObj.get_set_self] at hr
    subst hr
    simp [JSObj.get_set_self]

theorem getConnection_keeps (dbName other : String) (o : ConnectOutcome) (s : State)
    (v : Slot Connection) (h : s.connections.get other = some v) :
    (getConnection dbName o s).2.connections.get other = some v := by
  unfold getConnection
  cases hget : s.connections.get dbName with
  | some w => simpa using h
  | none =>
    have hne : other ≠ dbName := by
      intro e
      rw [e, hget] at h
      exact Option.noConfusion h
    cases o <;> simp [JSObj.get_set_of_ne _ _ _ _ hne, h]

theorem getConnection_frame (dbName : String) (o : ConnectOutcome) (s : State) :
    (getConnection dbName o s).2.models = s.models ∧
      (getConnection dbName o s).2.store = s.store := by
  unfold getConnection
  cases hget : s.connections.get dbName with
  | some w => simp
  | none => cases o <;> simp

theorem getModel_keeps (reg : Registry) (dbName collectionName other : String)
    (o : ConnectOutcome) (s : State) (v : Slot Connection)
    (h : s.connections.get other = some v) :
    (getModel reg dbName collectionName o s).2.connections.get other = some v := by
  have hk := getConnection_keeps dbName other o s v h
  unfold getModel
  cases hm : s.models.get (modelKey dbName collectionName) with
  | some w => simpa using h
  | none =>
    rcases hc : getConnection dbName o s with ⟨r, s1⟩
    rw [hc] at hk
    rcases r with e | r
    · simpa using hk
    · rcases r with _ | r
      · simpa using hk
      · rcases r with k | key
        · cases hb : buildHandle reg k collectionName <;> simpa [hb] using hk
        · simpa using hk

theorem getModel_store (reg : Registry) (dbName collectionName : String)
    (o : ConnectOutcome) (s : State) :
    (getModel reg dbName collectionName o s).2.store = s.store := by
  have hk := (getConnection_frame dbName o s).2
  unfold getModel
  cases hm : s.models.get (modelKey dbName collectionName) with
  | some w => simp
  | none =>
    rcases hc : getConnection dbName o s with ⟨r, s1⟩
    rw [hc] at hk
    rcases r with e | r
    · simpa using hk
    · rcases r with _ | r
      · simpa using hk
      · rcases r with k | key
        · cases hb : buildHandle reg k collectionName <;> simpa [hb] using hk
        · simpa using hk

theorem getModel_miss (reg : Registry) (dbName collectionName : String) (o : ConnectOutcome)
    (s s1 : State) (k : Connection) (h : Handle)
    (hmiss : s.models.get (modelKey dbName collectionName) = none)
    (hconn : getConnection dbName o s = (Except.ok (some (Slot.own k)), s1))
    (hbuild : buildHandle reg k collectionName = Except.ok h) :
    getModel reg dbName collectionName o s =
      (Except.ok (some (Slot.own h)),
        { s1 with models := s1.models.set (modelKey dbName collectionName) h }) := by
  simp [getModel, hmiss, hconn, hbuild, JSObj.get_set_self]

theorem getModel_miss_throws (reg : Registry) (dbName collectionName : String)
    (o : ConnectOutcome) (s s1 : State) (k : Connection) (e : Err)
    (hmiss : s.models.get (modelKey dbName collectionName) = none)
    (hconn : getConnection dbName o s = (Except.ok (some (Slot.own k)), s1))
    (hbuild : buildHandle reg k collectionName = Except.error e) :
    getModel reg dbName collectionName o s = (Except.error e, s1) := by
  simp [getModel, hmiss, hconn, hbuild]


/-! ## The handlers never replace a cached connection -/

theorem findHandler_keeps (reg : Registry) (db c other : String) (env : Env) (s : State)
    (v : Slot Connection) (h : s.connections.get other = some v) :
    (findHandler reg db c env s).2.connections.get other = some v := by
  have hk := getModel_keeps reg db c other env.connect s v h
  unfold findHandler
  split <;> (try split) <;> simp_all

theorem insertHandler_keeps (reg : Registry) (db c other : String) (env : Env) (s : State)
    (v : Slot Connection) (h : s.connections.get other = some v) :
    (insertHandler reg db c env s).2.connections.get other = some v := by
  have hk := getModel_keeps reg db c other env.connect s v h
  unfold insertHandler
  split <;> (try split) <;> simp_all

theorem updateHandler_keeps (reg : Registry) (db c id other : String)
    (data : List (String × String)) (env : Env) (s : State)
    (v : Slot Connection) (h : s.connections.get other = some v) :
    (updateHandler reg db c id data env s).2.connections.get other = some v := by
  have hk := getModel_keeps reg db c other env.connect s v h
  unfold updateHandler
  split <;> simp_all [Value.truthy, newDocument]

theorem deleteHandler_keeps (reg : Registry) (db c id other : String) (env : Env) (s : State)
    (v : Slot Connection) (h : s.connections.get other = some v) :
    (deleteHandler reg db c id env s).2.connections.get other = some v := by
  have hk := getModel_keeps reg db c other env.connect s v h
  unfold deleteHandler
  split <;> simp_all [Value.truthy]

theorem deleteCollectionHandler_keeps (db c other : String) (env : Env) (s : State)
    (v : Slot Connection) (h : s.connections.get other = some v) :
    (deleteCollectionHandler db c env s).2.connections.get other = some v := by
  have hk := getConnection_keeps db other env.connect s v h
  unfold deleteCollectionHandler
  split
  · simp_all
  · dsimp only
    split_ifs <;> simp_all
  · simp_all

theorem runOp_keeps (reg : Registry) (op : Op) (other : String) (s : State)
    (v : Slot Connection) (h : s.connections.get other = some v) :
    (runOp reg op s).2.connections.get other = some v := by
  cases op with
  | find db c env => exact findHandler_keeps reg db c other env s v h
  | insert db c env => exact insertHandler_keeps reg db c other env s v h
  | update db c id data env => exact updateHandler_keeps reg db c id other data env s v h
  | delete db c id env => exact deleteHandler_keeps reg db c id other env s v h
  | deleteCollection db c env => exact deleteCollectionHandler_keeps db c other env s v h

theorem runOps_keeps (reg : Registry) (ops : List Op) (other : String) (s : State)
    (v : Slot Connection) (h : s.connections.get other = some v) :
    (runOps reg ops s).connections.get other = some v := by
  induction ops generalizing s with
  | nil => exact h
  | cons op ops ih => exact ih (runOp reg op s).2 (runOp_keeps reg op other s v h)


/-! ## Interleaved first calls (C1) -/

theorem step_call_miss (s : Sys) (dbName : String)
    (h : s.st.connections.get dbName = none) :
    step s (Event.call dbName true) =
      ⟨{ s.st with created := s.st.created + 1 },
        s.tasks ++ [⟨dbName, Pc.awaitCreate ⟨s.st.created, dbName⟩⟩]⟩ := by
  simp [step, h]

theorem run_calls_miss (s : Sys) (dbName : String) (n : Nat)
    (h : s.st.connections.get dbName = none) :
    run s (List.replicate n (Event.call dbName true)) =
      ⟨{ s.st with created := s.st.created + n },
        s.tasks ++ (List.range n).map
          (fun i => (⟨dbName, Pc.awaitCreate ⟨s.st.created + i, dbName⟩⟩ : Task))⟩ := by
  induction n with
  | zero => simp [run]
  | succ n ih =>
    have hrun : run s (List.replicate (n + 1) (Event.call dbName true)) =
        step (run s (List.replicate n (Event.call dbName true))) (Event.call dbName true) := by
      simp [run, List.replicate_succ', List.foldl_append]
    rw [hrun, ih, step_call_miss _ _ (by simpa using h)]
    simp [List.range_succ, Nat.add_assoc]

/-- C1 (as amended): when `n` calls of `getConnection(T)` for a tenant without a
cache entry are started before any of them resumes from its first `await`, then
`mongoose.createConnection` has been invoked `n` times, the cache is still as it
was (so `connections[T]` is still unset: the key is written only on resumption),
and the `n` calls are suspended on `n` connection objects of different identity. -/
theorem getConnection_concurrent_first_calls (s : Sys) (T : String) (n : Nat)
    (h : s.st.connections.get T = none) :
    (run s (List.replicate n (Event.call T true))).st.created = s.st.created + n ∧
    (run s (List.replicate n (Event.call T true))).st.connections = s.st.connections ∧
    (run s (List.replicate n (Event.call T true))).st.connections.get T = none ∧
    (run s (List.replicate n (Event.call T true))).tasks =
      s.tasks ++ (List.range n).map
        (fun i => (⟨T, Pc.awaitCreate ⟨s.st.created + i, T⟩⟩ : Task)) := by
  rw [run_calls_miss s T n h]
  exact ⟨rfl, rfl, h, rfl⟩

/-- Witness of C1 (as amended): three first calls for tenant `shop` on the empty
cache. -/
theorem getConnection_concurrent_first_calls_witness :
    (initState []).connections.get "shop" = none ∧
    (run ⟨initState [], []⟩ (List.replicate 3 (Event.call "shop" true))).st.created = 0 + 3 ∧
    (run ⟨initState [], []⟩ (List.replicate 3 (Event.call "shop" true))).tasks =
      [] ++ (List.range 3).map
        (fun i => (⟨"shop", Pc.awaitCreate ⟨0 + i, "shop"⟩⟩ : Task)) :=
  ⟨by decide,
   (getConnection_concurrent_first_calls ⟨initState [], []⟩ "shop" 3 (by decide)).1,
   (getConnection_concurrent_first_calls ⟨initState [], []⟩ "shop" 3 (by decide)).2.2.2⟩

/-- Counterexample to C1: two calls of `getConnection("shop")` started on the
empty cache before either resumes create two connections, the cache holds no
entry for `shop` after the first call reached its first `await`, and in the
schedule `raceSchedule` the two callers receive different connection objects.
In `lateCallerSchedule` one connection is created, the first caller receives the
error and the second caller the connection. -/
theorem getConnection_concurrent_calls_create_twice :
    (run ⟨initState [], []⟩ [Event.call "shop" true]).st.connections.get "shop" = none ∧
    (run ⟨initState [], []⟩ [Event.call "shop" true, Event.call "shop" true]).st.created = 2 ∧
    (run ⟨initState [], []⟩ raceSchedule).st.created = 2 ∧
    (run ⟨initState [], []⟩ raceSchedule).tasks =
      [⟨"shop", Pc.returned (some (Slot.own ⟨0, "shop"⟩))⟩,
       ⟨"shop", Pc.returned (some (Slot.own ⟨1, "shop"⟩))⟩] ∧
    (run ⟨initState [], []⟩ lateCallerSchedule).st.created = 1 ∧
    (run ⟨initState [], []⟩ lateCallerSchedule).tasks =
      [⟨"shop", Pc.threw Err.errorEvent⟩,
       ⟨"shop", Pc.returned (some (Slot.own ⟨0, "shop"⟩))⟩] := by
  decide


/-- A single call in the interleaved execution does what `getConnection` does:
on a cache miss with the connection opening, the schedule call, resume, open
ends in the state and with the value of `getConnection`. -/
theorem run_single_call_opens (s : State) (dbName : String)
    (h : s.connections.get dbName = none) :
    run ⟨s, []⟩ [Event.call dbName true, Event.resume 0, Event.emitOpen 0] =
      ⟨(getConnection dbName ConnectOutcome.opens s).2,
        [⟨dbName, Pc.returned (some (Slot.own ⟨s.created, dbName⟩))⟩]⟩ ∧
    (getConnection dbName ConnectOutcome.opens s).1 =
      Except.ok (some (Slot.own ⟨s.created, dbName⟩)) := by
  rw [getConnection_miss_opens dbName s h]
  simp [run, step, h, Sys.setPc, JSObj.get_set_self]

/-! ## Failed connection attempts (C2) -/

/-- C2 (as amended): for a tenant without a cache entry, when
`mongoose.createConnection` rejects, the error reaches the caller, the cache is
unchanged (no entry for the tenant) and every later call starts a new attempt;
when the created connection emits `error` before `open`, the error reaches the
caller, but the connection stays in the cache under the tenant and every later
call returns it without a new attempt. -/
theorem getConnection_failure (dbName : String) (s : State)
    (h : s.connections.get dbName = none) :
    ((getConnection dbName ConnectOutcome.rejects s).1 = Except.error Err.createRejected ∧
     (getConnection dbName ConnectOutcome.rejects s).2.connections = s.connections ∧
     (getConnection dbName ConnectOutcome.rejects s).2.connections.get dbName = none ∧
     ∀ o, (getConnection dbName o (getConnection dbName ConnectOutcome.rejects s).2).2.created =
       (getConnection dbName ConnectOutcome.rejects s).2.created + 1) ∧
    ((getConnection dbName ConnectOutcome.emitsError s).1 = Except.error Err.errorEvent ∧
     (getConnection dbName ConnectOutcome.emitsError s).2.connections.get dbName =
       some (Slot.own ⟨s.created, dbName⟩) ∧
     ∀ o, getConnection dbName o (getConnection dbName ConnectOutcome.emitsError s).2 =
       (Except.ok (some (Slot.own ⟨s.created, dbName⟩)),
        (getConnection dbName ConnectOutcome.emitsError s).2)) := by
  have hrej : getConnection dbName ConnectOutcome.rejects s =
      (Except.error Err.createRejected, { s with created := s.created + 1 }) := by
    simp [getConnection, h]
  have herr : getConnection dbName ConnectOutcome.emitsError s =
      (Except.error Err.errorEvent,
        { s with created := s.created + 1,
                 connections := s.connections.set dbName ⟨s.created, dbName⟩ }) := by
    simp [getConnection, h]
  refine ⟨⟨?_, ?_, ?_, ?_⟩, ?_, ?_, ?_⟩
  · rw [hrej]
  · rw [hrej]
  · rw [hrej]; exact h
  · intro o
    rw [hrej]
    cases o <;> simp [getConnection, h]
  · rw [herr]
  · rw [herr]; exact JSObj.get_set_self _ _ _
  · intro o
    rw [herr]
    exact getConnection_hit _ _ _ _ (JSObj.get_set_self _ _ _)

/-- Witness of C2 (as amended): tenant `shop` on the empty cache. -/
theorem getConnection_failure_witness :
    (initState []).connections.get "shop" = none ∧
    (getConnection "shop" ConnectOutcome.rejects (initState [])).2.connections.get "shop"
      = none ∧
    (getConnection "shop" ConnectOutcome.emitsError (initState [])).2.connections.get "shop"
      = some (Slot.own ⟨(initState []).created, "shop"⟩) :=
  ⟨by decide,
   (getConnection_failure "shop" (initState []) (by decide)).1.2.2.1,
   (getConnection_failure "shop" (initState []) (by decide)).2.2.1⟩

/-- Counterexample to C2: on the empty cache the connection created for `shop`
emits `error` before `open`; the call fails, yet the cache then holds that
connection under `shop`, and the next call returns it without calling
`createConnection` again (the counter stays at 1). -/
theorem getConnection_error_event_stays_cached :
    (initState []).connections.get "shop" = none ∧
    (getConnection "shop" ConnectOutcome.emitsError (initState [])).1
      = Except.error Err.errorEvent ∧
    (getConnection "shop" ConnectOutcome.emitsError (initState [])).2.connections.get "shop"
      = some (Slot.own ⟨0, "shop"⟩) ∧
    (getConnection "shop" ConnectOutcome.opens
        (getConnection "shop" ConnectOutcome.emitsError (initState [])).2).1
      = Except.ok (some (Slot.own ⟨0, "shop"⟩)) ∧
    (getConnection "shop" ConnectOutcome.opens
        (getConnection "shop" ConnectOutcome.emitsError (initState [])).2).2.created = 1 := by
  decide

/-! ## Handle keys (C3) and the registry lookup (C4) -/

/-- C3 (evaluation at the failing input): after a successful
`getModel("a-b", "c")` on the empty caches, `getModel("a", "b-c")` succeeds and
returns the handle of the first call, bound to the connection of tenant `a-b` and
to the physical collection `c`; no connection for tenant `a` is created. -/
theorem getModel_key_collision (reg : Registry) :
    modelKey "a-b" "c" = modelKey "a" "b-c" ∧
    (getModel reg "a-b" "c" ConnectOutcome.opens (initState [])).1 =
      Except.ok (some (Slot.own ⟨⟨0, "a-b"⟩, some "c", SchemaArg.dynamic, "c"⟩)) ∧
    (getModel reg "a" "b-c" ConnectOutcome.opens
        (getModel reg "a-b" "c" ConnectOutcome.opens (initState [])).2).1 =
      Except.ok (some (Slot.own ⟨⟨0, "a-b"⟩, some "c", SchemaArg.dynamic, "c"⟩)) ∧
    (getModel reg "a" "b-c" ConnectOutcome.opens
        (getModel reg "a-b" "c" ConnectOutcome.opens (initState [])).2).2.connections.get "a"
      = none := by
  refine ⟨by decide, ?_, ?_, ?_⟩ <;> rfl

/-- C4 (evaluation at the failing input): `getModel("shop", "constructor")` on
the empty caches, with the connection obtained.  `constructor` is no key of the
registry, yet `modelMapping["constructor"]` finds the member inherited from
`Object.prototype`, which is truthy, so line 62 runs and calls
`connection.model(undefined, undefined, "constructor")`.  The library throws
`MissingSchemaError`: `getModel` rejects after the connection was cached, no
handle is cached, and the find handler answers 500.  No handle with a permissive
schema is built, stored or returned. -/
theorem getModel_inherited_registry_key (reg : Registry) :
    (modelMapping reg).lookup "constructor" = none ∧
    modelArguments reg ⟨0, "shop"⟩ "constructor" =
      ⟨⟨0, "shop"⟩, none, SchemaArg.undefined, "constructor"⟩ ∧
    getModel reg "shop" "constructor" ConnectOutcome.opens (initState []) =
      (Except.error Err.missingSchema, ⟨[("shop", ⟨0, "shop"⟩)], [], 1, []⟩) ∧
    (getModel reg "shop" "constructor" ConnectOutcome.opens (initState [])).2.models.get
        (modelKey "shop" "constructor") = none ∧
    (findHandler reg "shop" "constructor" allOk (initState [])).1 =
      ⟨500, Body.errorOf Err.missingSchema⟩ := by
  refine ⟨?_, ?_, ?_, ?_, ?_⟩ <;> rfl

theorem modelArguments_target (reg : Registry) (k : Connection) (collectionName : String) :
    (modelArguments reg k collectionName).conn = k ∧
    (modelArguments reg k collectionName).collection = collectionName := by
  unfold modelArguments
  split <;> exact ⟨rfl, rfl⟩

theorem buildHandle_ok (reg : Registry) (k : Connection) (collectionName : String)
    (h : Handle) (hb : buildHandle reg k collectionName = Except.ok h) :
    h = modelArguments reg k collectionName := by
  unfold buildHandle at hb
  split at hb
  · exact Except.noConfusion hb
  · exact Except.noConfusion hb
  · split at hb
    · exact Except.noConfusion hb
    · exact (Except.ok.inj hb).symm

/-- Every handle built on a cache miss is bound to the connection it was built
on and to the requested collection name. -/
theorem buildHandle_target (reg : Registry) (k : Connection) (collectionName : String)
    (h : Handle) (hb : buildHandle reg k collectionName = Except.ok h) :
    h.conn = k ∧ h.collection = collectionName := by
  rw [buildHandle_ok reg k collectionName h hb]
  exact modelArguments_target reg k collectionName

/-- The handle built for a registry key uses the registered schema and model
name and the requested collection name. -/
theorem buildHandle_registered (reg : Registry) (k : Connection) :
    buildHandle reg k "GroceryInventory" =
      Except.ok ⟨k, some reg.GroceryItem.modelName,
        SchemaArg.registered reg.GroceryItem.schema, "GroceryInventory"⟩ ∧
    buildHandle reg k "Employees" =
      Except.ok ⟨k, some reg.Employee.modelName,
        SchemaArg.registered reg.Employee.schema, "Employees"⟩ := by
  have a1 : modelArguments reg k "GroceryInventory" =
      ⟨k, some reg.GroceryItem.modelName, SchemaArg.registered reg.GroceryItem.schema,
        "GroceryInventory"⟩ := rfl
  have a2 : modelArguments reg k "Employees" =
      ⟨k, some reg.Employee.modelName, SchemaArg.registered reg.Employee.schema,
        "Employees"⟩ := rfl
  constructor
  · simp [buildHandle, a1]
  · simp [buildHandle, a2]

/-- The handle built for a non-empty name that is neither a registry key nor a
member of `Object.prototype` uses the permissive schema and the requested name
twice. -/
theorem buildHandle_dynamic (reg : Registry) (k : Connection) (collectionName : String)
    (h0 : collectionName ≠ "")
    (h1 : collectionName ≠ "GroceryInventory") (h2 : collectionName ≠ "Employees")
    (h3 : collectionName ∉ objectPrototypeKeys) :
    buildHandle reg k collectionName =
      Except.ok ⟨k, some collectionName, SchemaArg.dynamic, collectionName⟩ := by
  have e1 : (collectionName == "GroceryInventory") = false := by simpa using h1
  have e2 : (collectionName == "Employees") = false := by simpa using h2
  have a : modelArguments reg k collectionName =
      ⟨k, some collectionName, SchemaArg.dynamic, collectionName⟩ := by
    simp [modelArguments, modelMapping, JSObj.get, List.lookup_cons, e1, e2, h3]
  simp [buildHandle, a, h0]

/-- For a name inherited from `Object.prototype` the call has neither a name nor
a schema and the library throws. -/
theorem buildHandle_inherited (reg : Registry) (k : Connection) (collectionName : String)
    (h : collectionName ∈ objectPrototypeKeys) :
    modelArguments reg k collectionName = ⟨k, none, SchemaArg.undefined, collectionName⟩ ∧
    buildHandle reg k collectionName = Except.error Err.missingSchema := by
  have e1 : (collectionName == "GroceryInventory") = false := by
    have : collectionName ≠ "GroceryInventory" := by
      intro e; rw [e] at h; revert h; decide
    simpa using this
  have e2 : (collectionName == "Employees") = false := by
    have : collectionName ≠ "Employees" := by
      intro e; rw [e] at h; revert h; decide
    simpa using this
  have a : modelArguments reg k collectionName =
      ⟨k, none, SchemaArg.undefined, collectionName⟩ := by
    simp [modelArguments, modelMapping, JSObj.get, List.lookup_cons, e1, e2, h]
  exact ⟨a, by simp [buildHandle, a]⟩

/-- For the empty collection name the library throws. -/
theorem buildHandle_empty (reg : Registry) (k : Connection) :
    buildHandle reg k "" = Except.error Err.emptyCollectionName := by
  have a : modelArguments reg k "" = ⟨k, some "", SchemaArg.dynamic, ""⟩ := rfl
  simp [buildHandle, a]

/-! ## Cache hits (C5) -/

/-- C5: once a call `getConnection(T)` has returned `K`, after any further
requests served one after another (any of the five routes, with any outcome of
their driver calls) `connections[T]` is still `K`, and a call `getConnection(T)`
returns `K` and leaves the whole state as it is, whatever the driver would
answer: no connection is created and neither cache changes. -/
theorem getConnection_cached_is_stable (reg : Registry) (T : String) (o : ConnectOutcome)
    (s s1 : State) (K : Slot Connection)
    (h : getConnection T o s = (Except.ok (some K), s1)) (ops : List Op)
    (o2 : ConnectOutcome) :
    (runOps reg ops s1).connections.get T = some K ∧
    getConnection T o2 (runOps reg ops s1) = (Except.ok (some K), runOps reg ops s1) := by
  have h1 : s1.connections.get T = some K := (getConnection_ok T o s s1 _ h).1
  have h2 := runOps_keeps reg ops T s1 K h1
  exact ⟨h2, getConnection_hit T o2 _ K h2⟩

/-- Witness of C5: tenant `shop` is connected on the empty cache, then a
collection is dropped, a document is updated and another tenant is read; a later
call whose driver would reject still returns the first connection. -/
theorem getConnection_cached_is_stable_witness :
    getConnection "shop" ConnectOutcome.opens (initState emptyItemsStore) =
      (Except.ok (some (Slot.own ⟨0, "shop"⟩)),
        ⟨[("shop", ⟨0, "shop"⟩)], [], 1, emptyItemsStore⟩) ∧
    getConnection "shop" ConnectOutcome.rejects
        (runOps sampleRegistry
          [Op.deleteCollection "shop" "items" allOk, Op.update "shop" "items" "d1" [] allOk,
           Op.find "bank" "users" allOk]
          ⟨[("shop", ⟨0, "shop"⟩)], [], 1, emptyItemsStore⟩) =
      (Except.ok (some (Slot.own ⟨0, "shop"⟩)),
        runOps sampleRegistry
          [Op.deleteCollection "shop" "items" allOk, Op.update "shop" "items" "d1" [] allOk,
           Op.find "bank" "users" allOk]
          ⟨[("shop", ⟨0, "shop"⟩)], [], 1, emptyItemsStore⟩) :=
  ⟨by decide,
   (getConnection_cached_is_stable sampleRegistry "shop" ConnectOutcome.opens
      (initState emptyItemsStore) ⟨[("shop", ⟨0, "shop"⟩)], [], 1, emptyItemsStore⟩
      (Slot.own ⟨0, "shop"⟩) (by decide) _ ConnectOutcome.rejects).2⟩

/-! ## Update and delete by id (C6, C7, C8) -/

/-- The update handler answers 400 on every input and never touches the store. -/
theorem updateHandler_always_400 (reg : Registry) (db c id : String)
    (data : List (String × String)) (env : Env) (s : State) :
    (updateHandler reg db c id data env s).1.status = 400 ∧
    (updateHandler reg db c id data env s).2.store = s.store := by
  have hs := getModel_store reg db c env.connect s
  unfold updateHandler
  split <;> simp_all [Value.truthy, newDocument]

/-- The delete handler answers 200 whenever the handle is obtained, 400
otherwise, and never touches the store. -/
theorem deleteHandler_status (reg : Registry) (db c id : String) (env : Env) (s : State) :
    ((deleteHandler reg db c id env s).1.status = 200 ∨
      (deleteHandler reg db c id env s).1.status = 400) ∧
    (deleteHandler reg db c id env s).2.store = s.store := by
  have hs := getModel_store reg db c env.connect s
  refine ⟨?_, ?_⟩
  · unfold deleteHandler
    split <;> simp [Value.truthy]
  · unfold deleteHandler
    split <;> simp_all [Value.truthy]

/-- C6 (evaluation at the failing input): document `d1` exists in `shop/items`
with `qty` 5 and is updated with `qty` 6, every driver call succeeding.  The
handler answers 400 with the reference error on `newDocument`, and the stored
document still has `qty` 5. -/
theorem updateHandler_existing_id (reg : Registry) :
    findById shopStore "shop" "items" "d1" = some ⟨"d1", [("qty", "5")]⟩ ∧
    (updateHandler reg "shop" "items" "d1" [("qty", "6")] allOk (initState shopStore)).1 =
      ⟨400, Body.errorOf (Err.referenceError "newDocument")⟩ ∧
    findById
      (updateHandler reg "shop" "items" "d1" [("qty", "6")] allOk (initState shopStore)).2.store
      "shop" "items" "d1" = some ⟨"d1", [("qty", "5")]⟩ := by
  refine ⟨by decide, ?_, ?_⟩ <;> rfl

/-- C7 (evaluation at the failing input): no document `zz` exists in
`shop/items`; the update handler answers 400 with the reference error on
`newDocument`, not 404.  The store is unchanged. -/
theorem updateHandler_missing_id (reg : Registry) :
    findById shopStore "shop" "items" "zz" = none ∧
    (updateHandler reg "shop" "items" "zz" [("qty", "6")] allOk (initState shopStore)).1 =
      ⟨400, Body.errorOf (Err.referenceError "newDocument")⟩ ∧
    (updateHandler reg "shop" "items" "zz" [("qty", "6")] allOk (initState shopStore)).2.store
      = shopStore := by
  refine ⟨by decide, ?_, ?_⟩ <;> rfl

/-- C8 (evaluation at the failing inputs): in `shop/items`, which holds only
`d1`, deleting the absent id `zz` is answered with 200, not 404; deleting `d1` is
answered with 200 while `d1` is still in the store. -/
theorem deleteHandler_answers_200 (reg : Registry) :
    findById shopStore "shop" "items" "zz" = none ∧
    (deleteHandler reg "shop" "items" "zz" allOk (initState shopStore)).1 =
      ⟨200, Body.message "Document deleted successfully"⟩ ∧
    (deleteHandler reg "shop" "items" "d1" allOk (initState shopStore)).1 =
      ⟨200, Body.message "Document deleted successfully"⟩ ∧
    findById (deleteHandler reg "shop" "items" "d1" allOk (initState shopStore)).2.store
      "shop" "items" "d1" = some ⟨"d1", [("qty", "5")]⟩ := by
  refine ⟨by decide, ?_, ?_, ?_⟩ <;> rfl


/-! ## Cached connections belong to their tenant -/

theorem JSObj.mem_of_get_own {α : Type} (o : JSObj α) (key : String) (v : α)
    (h : JSObj.get o key = some (Slot.own v)) : (key, v) ∈ o := by
  unfold JSObj.get at h
  cases hl : List.lookup key o with
  | none =>
    rw [hl] at h
    by_cases hk : key ∈ objectPrototypeKeys <;> simp [hk] at h
  | some w =>
    rw [hl] at h
    simp only [Option.some.injEq, Slot.own.injEq] at h
    subst h
    induction o with
    | nil => simp at hl
    | cons p o ih =>
      obtain ⟨a, b⟩ := p
      by_cases hab : key = a
      · subst hab
        simp only [List.lookup_cons, beq_self_eq_true, Option.some.injEq] at hl
        subst hl
        exact List.mem_cons_self _ _
      · have h2 : (key == a) = false := by simpa using hab
        simp only [List.lookup_cons, h2] at hl
        exact List.mem_cons_of_mem _ (ih hl)

theorem JSObj.mem_set {α : Type} (o : JSObj α) (key : String) (v : α) (p : String × α)
    (h : p ∈ JSObj.set o key v) : p = (key, v) ∨ p ∈ o := by
  simp only [JSObj.set, JSObj.erase, List.mem_cons, List.mem_filter] at h
  rcases h with h | h
  · exact Or.inl h
  · exact Or.inr h.1

theorem getConnection_keyed (dbName : String) (o : ConnectOutcome) (s : State)
    (h : ConnectionsKeyed s) : ConnectionsKeyed (getConnection dbName o s).2 := by
  have hset : ∀ p ∈ JSObj.set s.connections dbName ⟨s.created, dbName⟩, p.2.dbName = p.1 := by
    intro p hp
    rcases JSObj.mem_set _ _ _ _ hp with e | hm
    · rw [e]
    · exact h p hm
  unfold getConnection
  cases hget : s.connections.get dbName with
  | some w => exact h
  | none =>
    cases o
    · exact h
    · exact hset
    · exact hset

theorem getModel_connections (reg : Registry) (dbName collectionName : String)
    (o : ConnectOutcome) (s : State) :
    (getModel reg dbName collectionName o s).2.connections = s.connections ∨
    (getModel reg dbName collectionName o s).2.connections =
      (getConnection dbName o s).2.connections := by
  unfold getModel
  cases hm : s.models.get (modelKey dbName collectionName) with
  | some w => exact Or.inl rfl
  | none =>
    right
    rcases hc : getConnection dbName o s with ⟨r, s1⟩
    rcases r with e | r
    · rfl
    · rcases r with _ | r
      · rfl
      · rcases r with k | key
        · dsimp only
          cases buildHandle reg k collectionName <;> rfl
        · rfl

theorem getModel_keyed (reg : Registry) (dbName collectionName : String)
    (o : ConnectOutcome) (s : State) (h : ConnectionsKeyed s) :
    ConnectionsKeyed (getModel reg dbName collectionName o s).2 := by
  unfold ConnectionsKeyed
  rcases getModel_connections reg dbName collectionName o s with e | e
  · rw [e]; exact h
  · rw [e]; exact getConnection_keyed dbName o s h

theorem runOp_keyed (reg : Registry) (op : Op) (s : State) (h : ConnectionsKeyed s) :
    ConnectionsKeyed (runOp reg op s).2 := by
  cases op with
  | find db c env =>
    have hk := getModel_keyed reg db c env.connect s h
    simp only [runOp, findHandler]
    rcases hc : getModel reg db c env.connect s with ⟨r, s1⟩
    rw [hc] at hk
    rcases r with e | _ | m | key
    · exact hk
    · exact hk
    · dsimp only
      split_ifs <;> exact hk
    · exact hk
  | insert db c env =>
    have hk := getModel_keyed reg db c env.connect s h
    simp only [runOp, insertHandler]
    rcases hc : getModel reg db c env.connect s with ⟨r, s1⟩
    rw [hc] at hk
    rcases r with e | _ | m | key
    · exact hk
    · exact hk
    · dsimp only
      cases env.saved <;> exact hk
    · exact hk
  | update db c id data env =>
    have hk := getModel_keyed reg db c env.connect s h
    simp only [runOp, updateHandler]
    rcases hc : getModel reg db c env.connect s with ⟨r, s1⟩
    rw [hc] at hk
    rcases r with e | _ | m | key <;> exact hk
  | delete db c id env =>
    have hk := getModel_keyed reg db c env.connect s h
    simp only [runOp, deleteHandler]
    rcases hc : getModel reg db c env.connect s with ⟨r, s1⟩
    rw [hc] at hk
    rcases r with e | _ | m | key <;> exact hk
  | deleteCollection db c env =>
    have hk := getConnection_keyed db env.connect s h
    simp only [runOp, deleteCollectionHandler]
    rcases hc : getConnection db env.connect s with ⟨r, s1⟩
    rw [hc] at hk
    rcases r with e | _ | m | key
    · exact hk
    · exact hk
    · dsimp only
      split_ifs <;> exact hk
    · exact hk

/-- In every state reached from process start by serving requests one after
another, a connection cached under a tenant was created for that tenant. -/
theorem runOps_keyed (reg : Registry) (ops : List Op) (s : State) (h : ConnectionsKeyed s) :
    ConnectionsKeyed (runOps reg ops s) := by
  induction ops generalizing s with
  | nil => exact h
  | cons op ops ih => exact ih (runOp reg op s).2 (runOp_keyed reg op s h)

theorem initState_keyed (store : Store) : ConnectionsKeyed (initState store) := by
  intro p hp
  simp [initState] at hp

theorem getConnection_dbName (dbName : String) (o : ConnectOutcome) (s s1 : State)
    (k : Connection) (h : ConnectionsKeyed s)
    (hconn : getConnection dbName o s = (Except.ok (some (Slot.own k)), s1)) :
    k.dbName = dbName := by
  have hk := getConnection_keyed dbName o s h
  rw [hconn] at hk
  have hget := (getConnection_ok dbName o s s1 _ hconn).1
  exact hk _ (JSObj.mem_of_get_own _ _ _ hget)

/-! ## Dropping a collection (C9, C10) -/

theorem listCollections_dropCollection (st : Store) (db name : String) :
    listCollections (dropCollection st db name) db name = [] := by
  simp [listCollections, dropCollection, List.filter_filter, List.filter_eq_nil_iff]

/-- C9 (as amended): when the handler obtains connection `k` for tenant `T` (a
connection of database `T` when the cache is `ConnectionsKeyed`),
`listCollections` finds collection `C` and `dropCollection` succeeds, the answer
is 200, `C` is dropped from the store and the handle-cache entry of `(T, C)` is
removed; the handle-cache entry of every other pair whose key differs from the
key of `(T, C)` is unchanged.  In the connection cache no entry is removed or
replaced: it is unchanged if `T` had an entry, and gains the entry the
`getConnection(T)` call of the handler created if `T` had none.  The next
`getModel(T, C)` misses the handle cache, reuses `k`, consults the registry
again and, whenever `connection.model` returns a handle, caches and returns that
new handle. -/
theorem deleteCollectionHandler_success (reg : Registry) (T C : String) (env : Env)
    (s s1 : State) (k : Connection)
    (hconn : getConnection T env.connect s = (Except.ok (some (Slot.own k)), s1))
    (hlist : env.listOk = true)
    (hex : listCollections s.store k.dbName C ≠ [])
    (hdrop : env.dropOk = true) :
    (deleteCollectionHandler T C env s).1.status = 200 ∧
    (ConnectionsKeyed s → k.dbName = T) ∧
    (deleteCollectionHandler T C env s).2 =
      { s1 with store := dropCollection s.store k.dbName C,
                models := s.models.erase (modelKey T C) } ∧
    listCollections (deleteCollectionHandler T C env s).2.store k.dbName C = [] ∧
    (deleteCollectionHandler T C env s).2.models.get (modelKey T C) = none ∧
    (∀ T2 C2, modelKey T2 C2 ≠ modelKey T C →
      (deleteCollectionHandler T C env s).2.models.get (modelKey T2 C2)
        = s.models.get (modelKey T2 C2)) ∧
    (deleteCollectionHandler T C env s).2.connections.get T = some (Slot.own k) ∧
    (∀ v, s.connections.get T = some v →
      (deleteCollectionHandler T C env s).2.connections = s.connections) ∧
    (s.connections.get T = none →
      (deleteCollectionHandler T C env s).2.connections
        = s.connections.set T ⟨s.created, T⟩) ∧
    (∀ other v, s.connections.get other = some v →
      (deleteCollectionHandler T C env s).2.connections.get other = some v) ∧
    (∀ o h, buildHandle reg k C = Except.ok h →
      getModel reg T C o (deleteCollectionHandler T C env s).2 =
        (Except.ok (some (Slot.own h)),
          { (deleteCollectionHandler T C env s).2 with
              models := (deleteCollectionHandler T C env s).2.models.set (modelKey T C) h })) := by
  obtain ⟨hget, -, hmodels, hstore, hcase⟩ := getConnection_ok T env.connect s s1 _ hconn
  have hrun : deleteCollectionHandler T C env s =
      (⟨200, Body.message ("Collection '" ++ C
          ++ "' has been successfully deleted from database '" ++ T ++ "'")⟩,
        { s1 with store := dropCollection s.store k.dbName C,
                  models := s.models.erase (modelKey T C) }) := by
    simp [deleteCollectionHandler, hconn, hlist, hdrop, hex, hstore, hmodels]
  rw [hrun]
  refine ⟨rfl, fun hkey => getConnection_dbName T env.connect s s1 k hkey hconn, rfl,
    listCollections_dropCollection _ _ _, JSObj.get_erase_modelKey _ _ _,
    fun T2 C2 hk => JSObj.get_erase_of_ne _ _ _ hk, hget, ?_, ?_, ?_, ?_⟩
  · intro v hv
    rcases hcase with ⟨-, hs⟩ | ⟨hn, -⟩
    · rw [hs]
    · rw [hn] at hv; exact Option.noConfusion hv
  · intro hn
    rcases hcase with ⟨hv, -⟩ | ⟨-, -, hc, -⟩
    · rw [hn] at hv; exact Option.noConfusion hv
    · exact hc
  · intro other v hv
    have := getConnection_keeps T other env.connect s v hv
    rw [hconn] at this
    exact this
  · intro o h hb
    exact getModel_miss reg T C o _ _ k h (JSObj.get_erase_modelKey _ _ _)
      (getConnection_hit T o _ _ hget) hb

/-- Witness of C9 (as amended): dropping `shop/items` in `warmState`; the handle
of `shop/other` stays and the next `getModel("shop", "items")` builds a handle
again. -/
theorem deleteCollectionHandler_success_witness :
    getConnection "shop" allOk.connect warmState
      = (Except.ok (some (Slot.own ⟨0, "shop"⟩)), warmState) ∧
    listCollections warmState.store "shop" "items" ≠ [] ∧
    buildHandle sampleRegistry ⟨0, "shop"⟩ "items"
      = Except.ok ⟨⟨0, "shop"⟩, some "items", SchemaArg.dynamic, "items"⟩ ∧
    (deleteCollectionHandler "shop" "items" allOk warmState).1.status = 200 ∧
    (deleteCollectionHandler "shop" "items" allOk warmState).2.models.get
      (modelKey "shop" "items") = none ∧
    (deleteCollectionHandler "shop" "items" allOk warmState).2.models.get
      (modelKey "shop" "other") = warmState.models.get (modelKey "shop" "other") ∧
    (getModel sampleRegistry "shop" "items" ConnectOutcome.rejects
        (deleteCollectionHandler "shop" "items" allOk warmState).2).1
      = Except.ok (some (Slot.own ⟨⟨0, "shop"⟩, some "items", SchemaArg.dynamic, "items"⟩)) :=
  ⟨by decide, by decide, by decide,
   (deleteCollectionHandler_success sampleRegistry "shop" "items" allOk warmState warmState
      ⟨0, "shop"⟩ (by decide) (by decide) (by decide) (by decide)).1,
   (deleteCollectionHandler_success sampleRegistry "shop" "items" allOk warmState warmState
      ⟨0, "shop"⟩ (by decide) (by decide) (by decide) (by decide)).2.2.2.2.1,
   (deleteCollectionHandler_success sampleRegistry "shop" "items" allOk warmState warmState
      ⟨0, "shop"⟩ (by decide) (by decide) (by decide) (by decide)).2.2.2.2.2.1
      "shop" "other" (by decide),
   congrArg Prod.fst
    ((deleteCollectionHandler_success sampleRegistry "shop" "items" allOk warmState warmState
      ⟨0, "shop"⟩ (by decide) (by decide) (by decide) (by decide)).2.2.2.2.2.2.2.2.2.2
      ConnectOutcome.rejects _ (by decide))⟩

/-- Counterexample to C9: on a fresh process whose store holds the empty
collection `shop/items`, the delete-collection call succeeds with 200, and the
connection cache entry for `shop` is not what it was before the call: there was
none, now there is one. -/
theorem deleteCollectionHandler_success_adds_connection :
    listCollections emptyItemsStore "shop" "items" ≠ [] ∧
    (deleteCollectionHandler "shop" "items" allOk (initState emptyItemsStore)).1.status = 200 ∧
    (initState emptyItemsStore).connections.get "shop" = none ∧
    (deleteCollectionHandler "shop" "items" allOk
        (initState emptyItemsStore)).2.connections.get "shop"
      = some (Slot.own ⟨0, "shop"⟩) := by
  decide

/-- C10 (as amended): when the handler obtains connection `k` for tenant `T` (a
connection of database `T` when the cache is `ConnectionsKeyed`) and
`listCollections` returns the empty list for `C`, the answer is 404, the store is
not touched (nothing is dropped) and the handle cache is the same as before.  In
the connection cache no entry is removed or replaced: it is unchanged if `T` had
an entry, and gains the entry the `getConnection(T)` call of the handler created if `T`
had none. -/
theorem deleteCollectionHandler_absent (T C : String) (env : Env)
    (s s1 : State) (k : Connection)
    (hconn : getConnection T env.connect s = (Except.ok (some (Slot.own k)), s1))
    (hlist : env.listOk = true)
    (hempty : listCollections s.store k.dbName C = []) :
    (deleteCollectionHandler T C env s).1.status = 404 ∧
    (ConnectionsKeyed s → k.dbName = T) ∧
    (deleteCollectionHandler T C env s).2 = s1 ∧
    (deleteCollectionHandler T C env s).2.store = s.store ∧
    (deleteCollectionHandler T C env s).2.models = s.models ∧
    (deleteCollectionHandler T C env s).2.connections.get T = some (Slot.own k) ∧
    (∀ v, s.connections.get T = some v →
      (deleteCollectionHandler T C env s).2 = s) ∧
    (s.connections.get T = none →
      (deleteCollectionHandler T C env s).2.connections
        = s.connections.set T ⟨s.created, T⟩) ∧
    (∀ other v, s.connections.get other = some v →
      (deleteCollectionHandler T C env s).2.connections.get other = some v) := by
  obtain ⟨hget, -, hmodels, hstore, hcase⟩ := getConnection_ok T env.connect s s1 _ hconn
  have hrun : deleteCollectionHandler T C env s =
      (⟨404, Body.error ("Collection '" ++ C ++ "' does not exist in database '"
          ++ T ++ "'.")⟩, s1) := by
    simp [deleteCollectionHandler, hconn, hlist, hempty, hstore]
  rw [hrun]
  refine ⟨rfl, fun hkey => getConnection_dbName T env.connect s s1 k hkey hconn, rfl,
    hstore, hmodels, hget, ?_, ?_, ?_⟩
  · intro v hv
    rcases hcase with ⟨-, hs⟩ | ⟨hn, -⟩
    · exact hs
    · rw [hn] at hv; exact Option.noConfusion hv
  · intro hn
    rcases hcase with ⟨hv, -⟩ | ⟨-, -, hc, -⟩
    · rw [hn] at hv; exact Option.noConfusion hv
    · exact hc
  · intro other v hv
    have := getConnection_keeps T other env.connect s v hv
    rw [hconn] at this
    exact this

/-- Witness of C10 (as amended): dropping the absent `shop/nope` in `warmState`. -/
theorem deleteCollectionHandler_absent_witness :
    getConnection "shop" allOk.connect warmState
      = (Except.ok (some (Slot.own ⟨0, "shop"⟩)), warmState) ∧
    listCollections warmState.store "shop" "nope" = [] ∧
    (deleteCollectionHandler "shop" "nope" allOk warmState).1.status = 404 ∧
    (deleteCollectionHandler "shop" "nope" allOk warmState).2 = warmState :=
  ⟨by decide, by decide,
   (deleteCollectionHandler_absent "shop" "nope" allOk warmState warmState
      ⟨0, "shop"⟩ (by decide) (by decide) (by decide)).1,
   (deleteCollectionHandler_absent "shop" "nope" allOk warmState warmState
      ⟨0, "shop"⟩ (by decide) (by decide) (by decide)).2.2.1⟩

/-- Counterexample to C10: on a fresh process with an empty store, deleting the
collection `shop/nope` is answered with 404, and the connection cache entry for
`shop` is not the same before and after the call: there was none, now there is
one, created by the call. -/
theorem deleteCollectionHandler_absent_adds_connection :
    listCollections (initState []).store "shop" "nope" = [] ∧
    (deleteCollectionHandler "shop" "nope" allOk (initState [])).1.status = 404 ∧
    (initState []).connections.get "shop" = none ∧
    (deleteCollectionHandler "shop" "nope" allOk (initState [])).2.connections.get "shop"
      = some (Slot.own ⟨0, "shop"⟩) ∧
    (deleteCollectionHandler "shop" "nope" allOk (initState [])).2.created = 1 := by
  decide


/-! ## Interleaved calls once a connection is cached -/

theorem mem_setPc (s : Sys) (i : Nat) (pc : Pc) (t : Task) (h : t ∈ s.setPc i pc) :
    t ∈ s.tasks ∨ t.pc = pc := by
  unfold Sys.setPc at h
  generalize s.tasks = l at h
  induction l generalizing i with
  | nil => simp at h
  | cons a l ih =>
    cases i with
    | zero =>
      simp only [List.modify_zero_cons, List.mem_cons] at h
      rcases h with h | h
      · right; rw [h]
      · left; exact List.mem_cons_of_mem _ h
    | succ i =>
      simp only [List.modify_succ_cons, List.mem_cons] at h
      rcases h with h | h
      · left; rw [h]; exact List.mem_cons_self _ _
      · rcases ih i h with h2 | h2
        · left; exact List.mem_cons_of_mem _ h2
        · right; exact h2

theorem step_keeps_cached (T : String) (K : Slot Connection) (s : Sys) (ev : Event)
    (h : s.st.connections.get T = some K) (hq : NoCreator T s) :
    (step s ev).st.connections.get T = some K ∧ NoCreator T (step s ev) := by
  cases ev with
  | call db ok =>
    simp only [step]
    cases hget : s.st.connections.get db with
    | some v =>
      refine ⟨h, ?_⟩
      intro t ht hdb
      simp only [List.mem_append, List.mem_singleton] at ht
      rcases ht with ht | ht
      · exact hq t ht hdb
      · rw [ht]; rfl
    | none =>
      have hne : db ≠ T := by
        intro e; rw [e, h] at hget; exact Option.noConfusion hget
      cases ok
      · refine ⟨h, ?_⟩
        intro t ht hdb
        simp only [Bool.false_eq_true, if_false, List.mem_append, List.mem_singleton] at ht
        rcases ht with ht | ht
        · exact hq t ht hdb
        · rw [ht]; rfl
      · refine ⟨h, ?_⟩
        intro t ht hdb
        simp only [if_true, List.mem_append, List.mem_singleton] at ht
        rcases ht with ht | ht
        · exact hq t ht hdb
        · rw [ht] at hdb; exact absurd hdb hne
  | resume i =>
    simp only [step]
    split
    · rename_i db k hi
      have hmem : (⟨db, Pc.awaitCreate k⟩ : Task) ∈ s.tasks := List.get?_mem hi
      have hne : T ≠ db := fun e => Bool.noConfusion (hq _ hmem e.symm)
      refine ⟨by simpa [JSObj.get_set_of_ne _ _ _ _ hne] using h, ?_⟩
      intro t ht hdb
      rcases mem_setPc s i _ t ht with h2 | h2
      · exact hq t h2 hdb
      · rw [h2]; rfl
    · exact ⟨h, hq⟩
  | emitOpen i =>
    simp only [step]
    split
    · refine ⟨h, ?_⟩
      intro t ht hdb
      rcases mem_setPc s i _ t ht with h2 | h2
      · exact hq t h2 hdb
      · rw [h2]; rfl
    · exact ⟨h, hq⟩
  | emitError i =>
    simp only [step]
    split
    · refine ⟨h, ?_⟩
      intro t ht hdb
      rcases mem_setPc s i _ t ht with h2 | h2
      · exact hq t h2 hdb
      · rw [h2]; rfl
    · exact ⟨h, hq⟩

/-- Once `connections[T]` holds `K` and no call for `T` is still suspended at the
`await` of line 28, no schedule of interleaved `getConnection` calls replaces
the entry, and a call started afterwards returns `K` at once and creates
nothing. -/
theorem run_keeps_cached (T : String) (K : Slot Connection) (s : Sys) (evs : List Event)
    (h : s.st.connections.get T = some K) (hq : NoCreator T s) (ok : Bool) :
    (run s evs).st.connections.get T = some K ∧
    step (run s evs) (Event.call T ok) =
      { run s evs with tasks := (run s evs).tasks ++ [⟨T, Pc.returned (some K)⟩] } := by
  have key : (run s evs).st.connections.get T = some K ∧ NoCreator T (run s evs) := by
    induction evs generalizing s with
    | nil => exact ⟨h, hq⟩
    | cons ev evs ih =>
      have hs := step_keeps_cached T K s ev h hq
      exact ih (step s ev) hs.1 hs.2
  refine ⟨key.1, ?_⟩
  simp [step, key.1]

end Gateway
